import Mathlib

/-!
Verification of the interval classification, grouping, and zoom/coordinate
engine of the intervals-viewer repository (src/analyzer and src/viewer).

Timestamps (pandas Timestamps / datetimes in the source) are modelled as
rationals counting seconds; all the source's time arithmetic is nanosecond
integer arithmetic converted to seconds, which embeds exactly in ℚ.
A pandas Series (one interval row) is modelled as an association list from
flattened column names to string values; a column that is absent and a column
holding null are both modelled as a missing key, which is faithful because
every accessor in the source (IntervalAnalyzer.get_series_column_value)
returns None in both cases.

Python operations that raise (ZeroDivisionError on `x / 0`,
pandas query errors) are modelled with Option/Except-style results.
-/

/-! ## Time and coordinate transforms (src/analyzer/analysis.py lines 15-57,
src/viewer/analysis.py lines 561-566, 726-732) -/

/-- Model of `seconds_between(from, to)` (analyzer/analysis.py line 15):
nanosecond delta converted to float seconds; exact on ℚ. -/
def secondsBetween (pdDatetimeFrom pdDatetimeTo : ℚ) : ℚ :=
  pdDatetimeTo - pdDatetimeFrom

/-- Python `int(x)` truncation toward zero on a rational. -/
def pytrunc (x : ℚ) : ℤ :=
  if 0 ≤ x then ⌊x⌋ else ⌈x⌉

/-- Model of `left_offset_from_datetime(baseline_dt, position_dt, pixels_per_second)`
(analyzer/analysis.py line 26): `seconds_between(baseline, position) * pixels_per_second`. -/
def leftOffsetFromDatetime (baselineDt positionDt pixelsPerSecond : ℚ) : ℚ :=
  secondsBetween baselineDt positionDt * pixelsPerSecond

/-- Model of `left_offset_to_datetime(baseline_dt, left_offset_px, pixels_per_second)`
(analyzer/analysis.py line 38): `baseline + timedelta(microseconds=int(px / pps * 1000000))`.
Division by a zero `pixels_per_second` raises ZeroDivisionError in Python: `none`. -/
def leftOffsetToDatetime (baselineDt leftOffsetPx pixelsPerSecond : ℚ) : Option ℚ :=
  if pixelsPerSecond = 0 then none
  else some (baselineDt + (pytrunc (leftOffsetPx / pixelsPerSecond * 1000000) : ℚ) / 1000000)

/-- Model of the viewer revision `EventsInspector.left_offset_to_datetime`
(viewer/analysis.py line 726): `zoom_start + timedelta(seconds=int(px / pps))` —
whole-second truncation instead of microseconds. -/
def leftOffsetToDatetimeSeconds (baselineDt leftOffsetPx pixelsPerSecond : ℚ) : Option ℚ :=
  if pixelsPerSecond = 0 then none
  else some (baselineDt + (pytrunc (leftOffsetPx / pixelsPerSecond) : ℚ))

/-- Model of `EventsInspector.calculate_pixels_per_second(timeline_width)`
(analyzer/analysis.py line 283): `timeline_width / current_zoom_timeline_seconds`,
with Python's ZeroDivisionError modelled as `none`. There is no guard in the source. -/
def calculatePixelsPerSecond (timelineWidth currentZoomTimelineSeconds : ℚ) : Option ℚ :=
  if currentZoomTimelineSeconds = 0 then none
  else some (timelineWidth / currentZoomTimelineSeconds)

/-- Model of the `current_zoom_timeline_seconds` recomputation done by
`EventsInspector.on_zoom_resize` (analyzer/analysis.py line 227):
`seconds_between(zoom_timeline_start, zoom_timeline_stop)`. -/
def onZoomResizeSeconds (zoomTimelineStart zoomTimelineStop : ℚ) : ℚ :=
  secondsBetween zoomTimelineStart zoomTimelineStop

/-! ## Zoom window mutation (src/analyzer/analysis.py lines 249-278) -/

/-- Lines 252-255: `if from_dt > to_dt`, swap the pair. -/
def zoomSwap (fromDt toDt : ℚ) : ℚ × ℚ :=
  if toDt < fromDt then (toDt, fromDt) else (fromDt, toDt)

/-- Lines 259-262: if the desired window is shorter than 10 seconds,
extend `to_dt` to `from_dt + 10s`. -/
def zoomFloorTen (p : ℚ × ℚ) : ℚ × ℚ :=
  if p.2 - p.1 < 10 then (p.1, p.1 + 10) else p

/-- Lines 264-266: if `from_dt < absolute_timeline_start`, shift the window
forward preserving the desired length. -/
def zoomClampStart (absStart : ℚ) (p : ℚ × ℚ) : ℚ × ℚ :=
  if p.1 < absStart then (absStart, absStart + (p.2 - p.1)) else p

/-- Lines 268-272: if `to_dt > absolute_timeline_stop`, shift the window
backward preserving the desired length, then re-clamp `from_dt` against
`absolute_timeline_start`. -/
def zoomClampStop (absStart absStop : ℚ) (p : ℚ × ℚ) : ℚ × ℚ :=
  if absStop < p.2 then
    (if absStop - (p.2 - p.1) < absStart then absStart else absStop - (p.2 - p.1), absStop)
  else p

/-- Model of `EventsInspector.zoom_to_dates(from_dt, to_dt)`
(analyzer/analysis.py lines 249-275): the resulting
(zoom_timeline_start, zoom_timeline_stop) pair. The collapse refiltering and
`on_zoom_resize` side effects are modelled separately. -/
def zoomToDates (absStart absStop fromDt toDt : ℚ) : ℚ × ℚ :=
  zoomClampStop absStart absStop (zoomClampStart absStart (zoomFloorTen (zoomSwap fromDt toDt)))

/-- Pandas `Timestamp.floor('min')`: round down to the whole minute. -/
def floorMinute (t : ℚ) : ℚ := 60 * (⌊t / 60⌋ : ℚ)

/-- Pandas `Timestamp.ceil('min')`: round up to the whole minute. -/
def ceilMinute (t : ℚ) : ℚ := 60 * (⌈t / 60⌉ : ℚ)

/-! ## The interval store (src/analyzer/analysis.py lines 157-247) -/

/-- One classified interval row, restricted to the columns the store
invariants are about: the sort columns `category_str`, `timeline_id`, `from`
and the window column `to` (analyzer/analysis.py line 161, 235). -/
structure IntervalRec where
  categoryStr : String
  timelineId : String
  fromT : ℚ
  toT : ℚ
deriving DecidableEq

/-- Minimum of the `from` column over a nonempty store (analyzer/analysis.py
line 178, `events_df['from'].min()`), given as head element plus tail. -/
def minFrom (e : IntervalRec) (l : List IntervalRec) : ℚ :=
  l.foldl (fun a r => min a r.fromT) e.fromT

/-- Maximum of the `to` column over a nonempty store (analyzer/analysis.py
line 179, `events_df['to'].max()`). -/
def maxTo (e : IntervalRec) (l : List IntervalRec) : ℚ :=
  l.foldl (fun a r => max a r.toT) e.toT

/-- The absolute timeline bounds recomputed by `rebuild_all_timelines`
(analyzer/analysis.py lines 178-179): floor-to-minute of min(`from`) and
ceil-to-minute of max(`to`). -/
def absoluteBounds (e : IntervalRec) (l : List IntervalRec) : ℚ × ℚ :=
  (floorMinute (minFrom e l), ceilMinute (maxTo e l))

/-- The sort key order used by `sort_values(['category_str', 'timeline_id', 'from'],
ascending=True)` (analyzer/analysis.py line 161): lexicographic on the triple. -/
def storeKeyLE (a b : IntervalRec) : Prop :=
  a.categoryStr < b.categoryStr ∨
    (a.categoryStr = b.categoryStr ∧
      (a.timelineId < b.timelineId ∨
        (a.timelineId = b.timelineId ∧ a.fromT ≤ b.fromT)))

instance : DecidableRel storeKeyLE := fun a b =>
  decidable_of_iff
    (a.categoryStr.toList < b.categoryStr.toList ∨
      (a.categoryStr = b.categoryStr ∧
        (a.timelineId.toList < b.timelineId.toList ∨
          (a.timelineId = b.timelineId ∧ a.fromT ≤ b.fromT))))
    (by unfold storeKeyLE
        rw [String.lt_iff_toList_lt, String.lt_iff_toList_lt])

instance : IsTotal IntervalRec storeKeyLE where
  total a b := by
    unfold storeKeyLE
    rcases lt_trichotomy a.categoryStr b.categoryStr with h | h | h
    · exact Or.inl (Or.inl h)
    · rcases lt_trichotomy a.timelineId b.timelineId with h2 | h2 | h2
      · exact Or.inl (Or.inr ⟨h, Or.inl h2⟩)
      · rcases le_total a.fromT b.fromT with h3 | h3
        · exact Or.inl (Or.inr ⟨h, Or.inr ⟨h2, h3⟩⟩)
        · exact Or.inr (Or.inr ⟨h.symm, Or.inr ⟨h2.symm, h3⟩⟩)
      · exact Or.inr (Or.inr ⟨h.symm, Or.inl h2⟩)
    · exact Or.inr (Or.inl h)

instance : IsTrans IntervalRec storeKeyLE where
  trans a b c hab hbc := by
    unfold storeKeyLE at hab hbc ⊢
    rcases hab with h1 | ⟨e1, h1⟩
    · rcases hbc with h2 | ⟨e2, _⟩
      · exact Or.inl (lt_trans h1 h2)
      · exact Or.inl (e2 ▸ h1)
    · rcases hbc with h2 | ⟨e2, h2⟩
      · exact Or.inl (by rw [e1]; exact h2)
      · refine Or.inr ⟨e1.trans e2, ?_⟩
        rcases h1 with t1 | ⟨f1, t1⟩
        · rcases h2 with t2 | ⟨f2, _⟩
          · exact Or.inl (lt_trans t1 t2)
          · exact Or.inl (f2 ▸ t1)
        · rcases h2 with t2 | ⟨f2, t2⟩
          · exact Or.inl (by rw [f1]; exact t2)
          · exact Or.inr ⟨f1.trans f2, le_trans t1 t2⟩

/-- Model of `EventsInspector.add_intervals` as it affects the store
(analyzer/analysis.py lines 157-161): concatenate the new events onto the
store, then sort the ENTIRE store by (category_str, timeline_id, from)
ascending. `insertionSort` models pandas `sort_values` (any correct
comparison sort yields a list sorted by the same key order). -/
def addIntervals (store newEvents : List IntervalRec) : List IntervalRec :=
  List.insertionSort storeKeyLE (store ++ newEvents)

/-- The (category_str, timeline_id) grouping key of a row, as used by
`groupby(['category_str', 'timeline_id'])` (analyzer/analysis.py lines 205, 239). -/
def recKey (r : IntervalRec) : String × String :=
  (r.categoryStr, r.timelineId)

/-- Model of the `all_timelines` mapping built by `rebuild_all_timelines`
(analyzer/analysis.py lines 189-199): every (category_str, timeline_id) key of
the store mapped to all store rows having that key. Bucket order (the
order_timelines_by_earliest_from policy) does not affect the membership and
multiplicity properties verified here. -/
def allTimelines (events : List IntervalRec) : List ((String × String) × List IntervalRec) :=
  ((events.map recKey).dedup).map
    (fun k => (k, events.filter (fun r => decide (recKey r = k))))

/-- The zoom-window overlap predicate of `apply_collapse_filter`
(analyzer/analysis.py line 235): `to >= zoom_timeline_start` and
`from <= zoom_timeline_stop`. -/
def overlapsWindow (zoomStart zoomStop : ℚ) (r : IntervalRec) : Bool :=
  decide (zoomStart ≤ r.toT) && decide (r.fromT ≤ zoomStop)

/-- The surviving group keys of `apply_collapse_filter` (analyzer/analysis.py
line 239): the (category_str, timeline_id) keys of the selected rows that
overlap the zoom window. -/
def survivingKeys (selected : List IntervalRec) (zoomStart zoomStop : ℚ) :
    List (String × String) :=
  ((selected.filter (overlapsWindow zoomStart zoomStop)).map recKey).dedup

/-- Model of `EventsInspector.apply_collapse_filter` (analyzer/analysis.py
lines 230-244): keep exactly the `all_timelines` entries whose key appears in
the grouped overlapping selection; each kept entry retains the full
`all_timelines` interval list. -/
def applyCollapseFilter (events selected : List IntervalRec) (zoomStart zoomStop : ℚ) :
    List ((String × String) × List IntervalRec) :=
  (allTimelines events).filter
    (fun kb => decide (kb.1 ∈ survivingKeys selected zoomStart zoomStop))

/-- All intervals across all returned timeline buckets. -/
def timelinesUnion (tl : List ((String × String) × List IntervalRec)) : List IntervalRec :=
  (tl.map Prod.snd).flatten

/-- Model of `EventsInspector.rebuild_selected_timelines_with(selected_rows)`
(analyzer/analysis.py lines 201-210): keep the `all_timelines` entries whose
key appears among the selected rows' group keys. -/
def rebuildSelectedTimelinesWith (events selected : List IntervalRec) :
    List ((String × String) × List IntervalRec) :=
  (allTimelines events).filter (fun kb => decide (kb.1 ∈ (selected.map recKey).dedup))

/-- The `EventsInspector` state touched by `set_filter_query`
(analyzer/analysis.py lines 212-222): the store, the filtered view
`selected_rows`, `last_filter_query`, and the grouped `selected_timelines`. -/
structure InspectorState where
  events : List IntervalRec
  selected : List IntervalRec
  lastFilterQuery : Option String
  selectedTimelines : List ((String × String) × List IntervalRec)
deriving DecidableEq

/-- Model of `EventsInspector.set_filter_query(query)` (analyzer/analysis.py
lines 212-222). `queryEngine` stands for pandas `DataFrame.query`: `none`
models the engine raising on a malformed expression. The Bool result is
`true` when the call re-raises to the caller; the returned state is the
object state after the call (the source assigns nothing before the `query`
call, so a raise leaves every field unchanged). A `None` query or an empty
string is falsy in Python and selects the whole store. -/
def setFilterQuery (queryEngine : String → List IntervalRec → Option (List IntervalRec))
    (s : InspectorState) (query : Option String) : InspectorState × Bool :=
  match query with
  | some q =>
    if q.isEmpty then
      ({ s with
          selected := s.events,
          lastFilterQuery := some q,
          selectedTimelines := rebuildSelectedTimelinesWith s.events s.events }, false)
    else
      match queryEngine q s.events with
      | none => (s, true)
      | some rows =>
        ({ s with
            selected := rows,
            lastFilterQuery := some q,
            selectedTimelines := rebuildSelectedTimelinesWith s.events rows }, false)
  | none =>
    ({ s with
        selected := s.events,
        lastFilterQuery := none,
        selectedTimelines := rebuildSelectedTimelinesWith s.events s.events }, false)

/-! ## Ingest (src/analyzer/analysis.py lines 127-155) -/

/-- A raw ingested interval dict, restricted to the fields the append-path
error handling is about: `from`, optional `to`, and
`tempStructuredMessage.reason`. -/
structure RawInterval where
  fromT : ℚ
  toT : Option ℚ
  msgReason : Option String
deriving DecidableEq

/-- Line 143: set `to` equal to `from` where `to` is null. No log line is
emitted by the source for this defaulting. -/
def defaultTo (r : RawInterval) : RawInterval :=
  { r with toT := some (r.toT.getD r.fromT) }

/-- Model of the record-dropping portion of
`EventsInspector.add_interval_dicts` (analyzer/analysis.py lines 142-155):
default missing `to`, then silently filter out rows whose
`tempStructuredMessage.reason` equals 'DisruptionEnded' (line 149). The
second component is the list of log lines the source emits for these steps:
the source prints nothing here, so it is always empty. (The classification
pass at lines 137-138 prints only per-rule missing-column warnings, never a
per-dropped-record line.) -/
def addIntervalDicts (raws : List RawInterval) : List RawInterval × List String :=
  let defaulted := raws.map defaultTo
  let kept := defaulted.filter (fun r => decide (r.msgReason ≠ some "DisruptionEnded"))
  (kept, [])

/-! ## Constructed inspector state (src/analyzer/analysis.py lines 69-98) -/

/-- The window and pixel fields set by `EventsInspector.__init__`
(analyzer/analysis.py lines 69-98). -/
structure InspectorWindow where
  absoluteTimelineStart : ℚ
  absoluteTimelineStop : ℚ
  zoomTimelineStart : ℚ
  zoomTimelineStop : ℚ
  currentTimelineWidth : ℚ
  currentPixelsPerSecondInTimeline : ℚ
  currentZoomTimelineSeconds : ℚ
deriving DecidableEq

/-- Model of `EventsInspector.__init__` before any data load
(analyzer/analysis.py lines 73-86): absolute window `[now, now + 60 minutes]`,
zoom window equal to the absolute window, width 0, pixels-per-second 0 and
zoom seconds 1. `now` is the construction time `pd.Timestamp.now()` (the
source calls it twice; the datetimes differ by call latency, modelled as one
instant, which only widens the 60-minute window by the latency). -/
def initEventsInspector (now : ℚ) : InspectorWindow :=
  { absoluteTimelineStart := now
    absoluteTimelineStop := now + 3600
    zoomTimelineStart := now
    zoomTimelineStop := now + 3600
    currentTimelineWidth := 0
    currentPixelsPerSecondInTimeline := 0
    currentZoomTimelineSeconds := 1 }

/-- Model of `EventsInspector.zoom_left_offset_to_datetime(left_offset_px)`
(analyzer/analysis.py lines 301-307): `left_offset_to_datetime` from the zoom
start at the current pixels-per-second. -/
def zoomLeftOffsetToDatetime (s : InspectorWindow) (leftOffsetPx : ℚ) : Option ℚ :=
  leftOffsetToDatetime s.zoomTimelineStart leftOffsetPx s.currentPixelsPerSecondInTimeline

/-! ## Classification rule engine (src/viewer/analysis.py lines 34-131,
502-578; the per-record revision of the engine; the analyzer revision encodes
the same rules as pandas query strings) -/

/-- A pandas Series row: flattened column name to string value. Absent and
null columns are both modelled as a missing key (see module docstring). -/
abbrev Row := List (String × String)

/-- Model of `IntervalAnalyzer.get_series_column_value` (viewer/analysis.py
line 510): the column value, or None when absent/null. -/
def getSeriesColumnValue (r : Row) (columnName : String) : Option String :=
  match r.find? (fun kv => kv.1 == columnName) with
  | some kv => some kv.2
  | none => none

/-- viewer/analysis.py line 521: locator attribute accessor. -/
def getLocatorAttr (r : Row) (attrName : String) : Option String :=
  getSeriesColumnValue r ("tempStructuredLocator." ++ attrName)

/-- viewer/analysis.py line 525: locator key accessor. -/
def getLocatorKey (r : Row) (keyName : String) : Option String :=
  getSeriesColumnValue r ("tempStructuredLocator.keys." ++ keyName)

/-- viewer/analysis.py line 529: message attribute accessor. -/
def getMessageAttr (r : Row) (attrName : String) : Option String :=
  getSeriesColumnValue r ("tempStructuredMessage." ++ attrName)

/-- viewer/analysis.py line 533: message annotation accessor
(get_message_annotation in the source). -/
def getMessageAnnot (r : Row) (annotName : String) : Option String :=
  getSeriesColumnValue r ("tempStructuredMessage.annotations." ++ annotName)

/-- Matcher constraint fields of `SimpleIntervalMatcher`
(viewer/analysis.py lines 39-57). A `Union[str, Set[str]]` constraint is a
list of admissible values (a single string is the singleton list: Python
tests equality for a str and membership for a set, which agree on a
singleton); an empty list models an unspecified (None, hence falsy)
constraint. The two dict-valued constraints (locator_keys_match and the
annotations map, here `annotMatch`) keep their Python dict insertion order. -/
structure SimpleIntervalMatcher where
  tempSource : List String := []
  locatorType : List String := []
  locatorKeysExist : List String := []
  locatorKeysMatch : List (String × String) := []
  reason : List String := []
  cause : List String := []
  annotExist : List String := []
  annotMatch : List (String × String) := []
  messageContains : String := ""
deriving DecidableEq

/-- The inner `matches_any(actual_value, options)` of
`SimpleIntervalMatcher.matches` (viewer/analysis.py lines 61-65). Python's
`None == str` and `None in set` are both False. -/
def matchesAny (actualValue : Option String) (options : List String) : Bool :=
  match actualValue with
  | some v => options.contains v
  | none => false

/-- ASCII lowercasing, modelling Python `str.lower()` on the ASCII rule
values used by the engine (String.toLower applied characterwise). -/
def strToLower (s : String) : String :=
  String.mk (s.toList.map Char.toLower)

/-- The inner `required_value_matches(actual_value, required_value)` of
`SimpleIntervalMatcher.matches` (viewer/analysis.py lines 93-98):
case-insensitive equality, None never equal to a string. -/
def requiredValueMatches (actualValue : Option String) (requiredValue : String) : Bool :=
  match actualValue with
  | some a => strToLower a == strToLower requiredValue
  | none => false

/-- Substring containment, modelling Python `needle in hay` on strings. -/
def strContainsSub (hay needle : String) : Bool :=
  decide (needle.toList <:+: hay.toList)

/-- Model of `SimpleIntervalMatcher.matches(interval)` (viewer/analysis.py
lines 59-113), translated check for check in source order. Note the two
dict-valued constraints reproduce the source's early `return` inside the
`for` loop: when `locator_keys_match` (or the annotations map) is non-empty,
the result is decided by its FIRST key/value pair alone, and for
locator_keys_match the remaining checks are skipped entirely. -/
def simMatches (m : SimpleIntervalMatcher) (r : Row) : Bool :=
  if !m.tempSource.isEmpty && !(matchesAny (getSeriesColumnValue r "tempSource") m.tempSource) then
    false
  else if !m.locatorType.isEmpty && !(matchesAny (getLocatorAttr r "type") m.locatorType) then
    false
  else if !m.reason.isEmpty && !(matchesAny (getMessageAttr r "reason") m.reason) then
    false
  else if !m.cause.isEmpty && !(matchesAny (getMessageAttr r "cause") m.cause) then
    false
  else if m.locatorKeysExist.any (fun k => (getLocatorKey r k).isNone) then
    false
  else if !m.messageContains.isEmpty &&
      !(match getSeriesColumnValue r "message" with
        | none => false
        | some msg => !msg.isEmpty && strContainsSub msg m.messageContains) then
    false
  else if !m.locatorKeysMatch.isEmpty then
    match m.locatorKeysMatch with
    | [] => true
    | (k, v) :: _ => requiredValueMatches (getLocatorKey r k) v
  else if m.annotExist.any (fun k => (getMessageAnnot r k).isNone) then
    false
  else if !m.annotMatch.isEmpty then
    match m.annotMatch with
    | [] => true
    | (k, v) :: _ => requiredValueMatches (getMessageAnnot r k) v
  else
    true

/-- The matcher variants of `IntervalClassification` (viewer/analysis.py
lines 116-131): a SimpleIntervalMatcher, a callable (only the catch-all's
`lambda interval: True`), or none at all. -/
inductive MatcherKind where
  | simple (m : SimpleIntervalMatcher)
  | alwaysTrue
  | noMatcher
deriving DecidableEq

/-- One member of the `IntervalClassifications` enumeration
(viewer/analysis.py lines 149-499): display name, category value string, and
matcher. -/
structure ClassificationRule where
  name : String
  category : String
  matcher : MatcherKind
deriving DecidableEq

/-- Model of `IntervalClassification.matches(interval)` (viewer/analysis.py
lines 126-131): the simple matcher if present, else the callable, else False. -/
def classMatches (c : ClassificationRule) (r : Row) : Bool :=
  match c.matcher with
  | .simple m => simMatches m r
  | .alwaysTrue => true
  | .noMatcher => false

/-- The catch-all member `IntervalClassifications.UnknownClassification`
(viewer/analysis.py lines 496-499): `series_matcher=lambda interval: True`,
category Unclassified. -/
def unknownClassificationRule : ClassificationRule :=
  { name := "UnknownClassification", category := "Unclassified", matcher := .alwaysTrue }

/-- The ordered `IntervalClassifications` enumeration (viewer/analysis.py
lines 149-499), in declared member order; enum iteration order is declaration
order. Constraint values are verbatim from the source. -/
def intervalClassifications : List ClassificationRule :=
  [ { name := "PathologicalKnown", category := "KubeEvent",
      matcher := .simple { tempSource := ["KubeEvent"],
                           annotMatch := [("interesting", "true"), ("pathological", "true")] } },
    { name := "InterestingEvent", category := "KubeEvent",
      matcher := .simple { tempSource := ["KubeEvent"],
                           annotMatch := [("interesting", "true")] } },
    { name := "PathologicalNew", category := "KubeEvent",
      matcher := .simple { tempSource := ["KubeEvent"],
                           annotMatch := [("pathological", "true")] } },
    { name := "AlertPending", category := "Alert",
      matcher := .simple { tempSource := ["Alert"],
                           annotMatch := [("pending", "true")] } },
    { name := "AlertInfo", category := "Alert",
      matcher := .simple { tempSource := ["Alert"],
                           annotMatch := [("severity", "info")] } },
    { name := "AlertWarning", category := "Alert",
      matcher := .simple { tempSource := ["Alert"],
                           annotMatch := [("severity", "warning")] } },
    { name := "AlertCritical", category := "Alert",
      matcher := .simple { tempSource := ["Alert"],
                           annotMatch := [("severity", "critical")] } },
    { name := "OperatorUnavailable", category := "OperatorState",
      matcher := .simple { tempSource := ["OperatorState"],
                           annotMatch := [("condition", "Available"), ("status", "false")] } },
    { name := "OperatorDegraded", category := "OperatorState",
      matcher := .simple { tempSource := ["OperatorState"],
                           annotMatch := [("condition", "Degraded"), ("status", "true")] } },
    { name := "OperatorProgressing", category := "OperatorState",
      matcher := .simple { tempSource := ["OperatorState"],
                           annotMatch := [("condition", "Progressing"), ("status", "true")] } },
    { name := "NodeDrain", category := "NodeState",
      matcher := .simple { locatorType := ["Node"],
                            annotMatch := [("phase", "Drain")] } },
    { name := "NodeReboot", category := "NodeState",
      matcher := .simple { locatorType := ["Node"],
                            annotMatch := [("phase", "Reboot")] } },
    { name := "NodeOperatingSystemUpdate", category := "NodeState",
      matcher := .simple { locatorType := ["Node"],
                            annotMatch := [("phase", "OperatingSystemUpdate")] } },
    { name := "NodeUpdate", category := "NodeState",
      matcher := .simple { locatorType := ["Node"],
                            annotMatch := [("reason", "NodeUpdate")] } },
    { name := "NodeNotReady", category := "NodeState",
      matcher := .simple { locatorType := ["Node"],
                            annotMatch := [("reason", "NotReady")] } },
    { name := "TestPassed", category := "E2ETest",
      matcher := .simple { tempSource := ["E2ETest"],
                           annotMatch := [("status", "Passed")] } },
    { name := "TestSkipped", category := "E2ETest",
      matcher := .simple { tempSource := ["E2ETest"],
                           annotMatch := [("status", "Skipped")] } },
    { name := "TestFlaked", category := "E2ETest",
      matcher := .simple { tempSource := ["E2ETest"],
                           annotMatch := [("status", "Flaked")] } },
    { name := "TestFailed", category := "E2ETest",
      matcher := .simple { tempSource := ["E2ETest"],
                           annotMatch := [("status", "Failed")] } },
    { name := "PodCreated", category := "Pod",
      matcher := .simple { tempSource := ["PodState"],
                           annotMatch := [("reason", "Created")] } },
    { name := "PodScheduled", category := "Pod",
      matcher := .simple { tempSource := ["PodState"],
                           annotMatch := [("reason", "Scheduled")] } },
    { name := "PodTerminating", category := "Pod",
      matcher := .simple { tempSource := ["PodState"],
                           annotMatch := [("reason", "GracefulDelete")] } },
    { name := "ContainerWait", category := "Pod",
      matcher := .simple { tempSource := ["PodState"], locatorKeysExist := ["container"],
                           annotMatch := [("reason", "ContainerWait")] } },
    { name := "ContainerStart", category := "Pod",
      matcher := .simple { tempSource := ["PodState"], locatorKeysExist := ["container"],
                           annotMatch := [("reason", "ContainerStart")] } },
    { name := "ContainerNotReady", category := "Pod",
      matcher := .simple { tempSource := ["PodState"], locatorKeysExist := ["container"],
                           annotMatch := [("reason", "NotReady")] } },
    { name := "ContainerReady", category := "Pod",
      matcher := .simple { tempSource := ["PodState"], locatorKeysExist := ["container"],
                           annotMatch := [("reason", "Ready")] } },
    { name := "ContainerReadinessFailed", category := "Pod",
      matcher := .simple { tempSource := ["PodState"], locatorKeysExist := ["container"],
                           annotMatch := [("reason", "ReadinessFailed")] } },
    { name := "ContainerReadinessErrored", category := "Pod",
      matcher := .simple { tempSource := ["PodState"], locatorKeysExist := ["container"],
                           annotMatch := [("reason", "ReadinessErrored")] } },
    { name := "StartupProbeFailed", category := "Pod",
      matcher := .simple { tempSource := ["PodState"],
                           annotMatch := [("reason", "StartupProbeFailed")] } },
    { name := "CIClusterDisruption", category := "Disruption",
      matcher := .simple { tempSource := ["Disruption"],
                           messageContains := "likely a problem in cluster running tests" } },
    { name := "Disruption", category := "Disruption",
      matcher := .simple { tempSource := ["Disruption"] } },
    { name := "Degraded", category := "ClusterState", matcher := .noMatcher },
    { name := "Upgradeable", category := "ClusterState", matcher := .noMatcher },
    { name := "StatusFalse", category := "ClusterState", matcher := .noMatcher },
    { name := "StatusUnknown", category := "ClusterState", matcher := .noMatcher },
    { name := "PodLogWarning", category := "PodLog",
      matcher := .simple { tempSource := ["PodLog", "EtcdLog"],
                           annotMatch := [("severity", "warning")] } },
    { name := "PodLogError", category := "PodLog",
      matcher := .simple { tempSource := ["PodLog", "EtcdLog"],
                           annotMatch := [("severity", "error")] } },
    { name := "PodLogInfo", category := "PodLog",
      matcher := .simple { tempSource := ["PodLog", "EtcdLog"],
                           annotMatch := [("severity", "info")] } },
    { name := "PodLogOther", category := "PodLog",
      matcher := .simple { tempSource := ["PodLog", "EtcdLog"] } },
    unknownClassificationRule ]

/-- Model of `get_interval_classification(interval)` (viewer/analysis.py
lines 573-578): the first enumeration member whose matcher accepts the row;
the trailing return of UnknownClassification is the unreachable default. -/
def getIntervalClassification (r : Row) : ClassificationRule :=
  match intervalClassifications.find? (fun c => classMatches c r) with
  | some c => c
  | none => unknownClassificationRule

/-- The simple matcher of the PathologicalKnown rule (viewer/analysis.py
lines 152-161), whose annotations map lists two required key/value pairs. -/
def pathologicalKnownMatcher : SimpleIntervalMatcher :=
  { tempSource := ["KubeEvent"],
    annotMatch := [("interesting", "true"), ("pathological", "true")] }

/-- A KubeEvent row whose `interesting` annotation is "true" but whose
`pathological` annotation is "false". -/
def c4Row : Row :=
  [("tempSource", "KubeEvent"),
   ("tempStructuredMessage.annotations.interesting", "true"),
   ("tempStructuredMessage.annotations.pathological", "false")]

/-- Collapse counterexample data: two rows sharing one
(category_str, timeline_id) key. `c5r1` overlaps the zoom window [0, 10]. -/
def c5r1 : IntervalRec :=
  { categoryStr := "Pod", timelineId := "pod-a", fromT := 0, toT := 5 }

/-- The second row of the shared timeline, outside the window [0, 10] and
excluded from the filtered selection. -/
def c5r2 : IntervalRec :=
  { categoryStr := "Pod", timelineId := "pod-a", fromT := 50, toT := 60 }

/-- A record whose message reason is DisruptionEnded, dropped at ingest. -/
def c9Raw : RawInterval :=
  { fromT := 0, toT := none, msgReason := some "DisruptionEnded" }

/-- A single-instant record at a minute boundary: loading it yields a
degenerate absolute range. -/
def c1Rec : IntervalRec :=
  { categoryStr := "Pod", timelineId := "pod-a", fromT := 0, toT := 0 }

/-- A record spanning a nonzero duration, for instantiating the loaded-bounds
property. -/
def c1WitRec : IntervalRec :=
  { categoryStr := "Pod", timelineId := "pod-a", fromT := 0, toT := 90 }

/-- Sort-invariant witness data: a record with the smaller sort key. -/
def c2a : IntervalRec :=
  { categoryStr := "Alert", timelineId := "a", fromT := 0, toT := 1 }

/-- Sort-invariant witness data: a record with the larger sort key. -/
def c2b : IntervalRec :=
  { categoryStr := "Pod", timelineId := "b", fromT := 5, toT := 6 }

/-! ## Theorems -/

/-- Helper: the result of an `add_intervals` call is sorted by the
(category_str, timeline_id, from) key. -/
theorem addIntervals_sorted (store newEvents : List IntervalRec) :
    List.Sorted storeKeyLE (addIntervals store newEvents) :=
  List.sorted_insertionSort storeKeyLE _

/-- Helper: any sequence of `add_intervals` calls starting from a sorted
store leaves the store sorted. -/
theorem foldl_addIntervals_sorted (batches : List (List IntervalRec))
    (acc : List IntervalRec) (hacc : List.Sorted storeKeyLE acc) :
    List.Sorted storeKeyLE (batches.foldl addIntervals acc) := by
  induction batches generalizing acc with
  | nil => exact hacc
  | cons b bs ih => exact ih _ (addIntervals_sorted _ _)

/-- C2: after any sequence of append calls, the interval store is fully and
globally ordered by the (category, timeline_key, from) triple ascending: for
every pair of positions i < j in the store, the key of record i is less than
or equal to the key of record j. -/
theorem store_sort_invariant (batches : List (List IntervalRec))
    (i j : Fin (batches.foldl addIntervals []).length) (hij : i < j) :
    storeKeyLE ((batches.foldl addIntervals []).get i)
      ((batches.foldl addIntervals []).get j) :=
  (foldl_addIntervals_sorted batches [] List.sorted_nil).rel_get_of_lt hij

/-- C2 witness: a concrete two-record batch, appended to the empty store,
ends up in key order. -/
theorem store_sort_invariant_witness :
    storeKeyLE (([[c2b, c2a]].foldl addIntervals []).get ⟨0, by decide⟩)
      (([[c2b, c2a]].foldl addIntervals []).get ⟨1, by decide⟩) :=
  store_sort_invariant [[c2b, c2a]] ⟨0, by decide⟩ ⟨1, by decide⟩ (by decide)

/-- C8 counterexample: with a zero-length zoom window the source's
pixels-per-second computation divides by zero (raises) instead of treating
the duration as the 10-second floor, which would have produced width / 10. -/
theorem pixels_per_second_zero_counterexample :
    onZoomResizeSeconds 5 5 = 0 ∧
    calculatePixelsPerSecond 1000 (onZoomResizeSeconds 5 5) = none ∧
    calculatePixelsPerSecond 1000 (onZoomResizeSeconds 5 5) ≠ some (1000 / 10) := by
  refine ⟨by norm_num [onZoomResizeSeconds, secondsBetween],
    by norm_num [onZoomResizeSeconds, secondsBetween, calculatePixelsPerSecond],
    by norm_num [onZoomResizeSeconds, secondsBetween, calculatePixelsPerSecond]; simp⟩

/-- C8 amended: `calculate_pixels_per_second` has no zero-duration guard; it
returns the finite value width / duration exactly when the zoom window is
non-degenerate (`zoom_stop` differs from `zoom_start` after
`on_zoom_resize` recomputes the seconds), and raises ZeroDivisionError on a
zero-length window. -/
theorem pixels_per_second_finite_of_nonzero (timelineWidth zoomStart zoomStop : ℚ)
    (h : zoomStart ≠ zoomStop) :
    calculatePixelsPerSecond timelineWidth (onZoomResizeSeconds zoomStart zoomStop)
      = some (timelineWidth / (zoomStop - zoomStart)) := by
  have hne : zoomStop - zoomStart ≠ 0 := sub_ne_zero.2 (Ne.symm h)
  simp [calculatePixelsPerSecond, onZoomResizeSeconds, secondsBetween, hne]

/-- C8 witness: a concrete non-degenerate window yields a finite
pixels-per-second. -/
theorem pixels_per_second_finite_witness :
    calculatePixelsPerSecond 1000 (onZoomResizeSeconds 0 100)
      = some (1000 / (100 - 0)) :=
  pixels_per_second_finite_of_nonzero 1000 0 100 (by norm_num)

/-- C10 counterexample: at construction `current_pixels_per_second_in_timeline`
is 0, so the pixel-to-time coordinate query `zoom_left_offset_to_datetime`
divides by zero (raises) before the first load / resize: coordinate queries
are not all defined on the freshly constructed inspector. -/
theorem init_pixel_query_counterexample :
    (initEventsInspector 0).currentPixelsPerSecondInTimeline = 0 ∧
    zoomLeftOffsetToDatetime (initEventsInspector 0) 1 = none := by
  constructor
  · rfl
  · simp [zoomLeftOffsetToDatetime, leftOffsetToDatetime, initEventsInspector]

/-- C10 amended: at construction the absolute window is
[now, now + 60 minutes], the zoom window equals the absolute window, so the
ZoomWindow invariant holds (with a 3600-second, hence at least 10-second,
visible window) on the empty store; the pixels-per-second computation is
defined (zoom seconds is initialized to 1), but pixel-to-time conversion
divides by zero until the first `on_zoom_resize`, because pixels-per-second
is initialized to 0. -/
theorem init_window_invariant (now : ℚ) :
    (initEventsInspector now).absoluteTimelineStart
        ≤ (initEventsInspector now).zoomTimelineStart ∧
    (initEventsInspector now).zoomTimelineStart
        < (initEventsInspector now).zoomTimelineStop ∧
    (initEventsInspector now).zoomTimelineStop
        ≤ (initEventsInspector now).absoluteTimelineStop ∧
    (initEventsInspector now).zoomTimelineStop
        - (initEventsInspector now).zoomTimelineStart = 3600 ∧
    (10 : ℚ) ≤ (initEventsInspector now).zoomTimelineStop
        - (initEventsInspector now).zoomTimelineStart ∧
    (∀ px : ℚ, zoomLeftOffsetToDatetime (initEventsInspector now) px = none) ∧
    calculatePixelsPerSecond (initEventsInspector now).currentTimelineWidth
        (initEventsInspector now).currentZoomTimelineSeconds = some 0 := by
  refine ⟨le_refl _, by norm_num [initEventsInspector], by norm_num [initEventsInspector],
    by norm_num [initEventsInspector], by norm_num [initEventsInspector], ?_, ?_⟩
  · intro px
    simp [zoomLeftOffsetToDatetime, leftOffsetToDatetime, initEventsInspector]
  · simp [calculatePixelsPerSecond, initEventsInspector]

/-- C9 counterexample: a batch consisting of one record whose message reason
is DisruptionEnded is dropped entirely while the emitted log is empty: the
drop is silent, contradicting the claim that every dropped record is
accompanied by an attributable log line. -/
theorem append_silent_drop_counterexample :
    (addIntervalDicts [c9Raw]).1 = [] ∧ (addIntervalDicts [c9Raw]).2 = [] := by
  decide

/-- C9 amended: append never aborts the batch — every record other than the
DisruptionEnded-reason ones survives (with a missing `to` silently defaulted
to `from`) — but the drops and the defaulting emit no log line at all (the
log component is always empty). -/
theorem append_drop_semantics (raws : List RawInterval) :
    (addIntervalDicts raws).2 = [] ∧
    (addIntervalDicts raws).1
      = (raws.map defaultTo).filter
          (fun r => decide (r.msgReason ≠ some "DisruptionEnded")) ∧
    (∀ r ∈ raws, r.msgReason ≠ some "DisruptionEnded" →
        defaultTo r ∈ (addIntervalDicts raws).1) := by
  refine ⟨rfl, rfl, ?_⟩
  intro r hr hne
  simp only [addIntervalDicts, List.mem_filter]
  exact ⟨List.mem_map_of_mem _ hr, by simpa [defaultTo] using hne⟩

/-- C9 witness: a well-formed record survives a concrete append. -/
theorem append_drop_semantics_witness :
    defaultTo { fromT := 0, toT := none, msgReason := some "Created" }
      ∈ (addIntervalDicts [{ fromT := 0, toT := none, msgReason := some "Created" }]).1 :=
  (append_drop_semantics _).2.2 _ (by decide) (by decide)

/-- C6: a malformed filter expression makes `set_filter_query` re-raise to
the caller with every piece of inspector state unchanged (previous filter,
selected view, grouped timelines), while a None query or an empty query
string succeeds and selects the whole store. -/
theorem set_filter_query_error_semantics
    (queryEngine : String → List IntervalRec → Option (List IntervalRec))
    (s : InspectorState) (q : String)
    (hq : q.isEmpty = false) (herr : queryEngine q s.events = none) :
    setFilterQuery queryEngine s (some q) = (s, true) ∧
    (setFilterQuery queryEngine s none).1.selected = s.events ∧
    (setFilterQuery queryEngine s none).2 = false ∧
    (setFilterQuery queryEngine s (some "")).1.selected = s.events ∧
    (setFilterQuery queryEngine s (some "")).2 = false := by
  refine ⟨?_, rfl, rfl, rfl, rfl⟩
  simp [setFilterQuery, hq, herr]

/-- C6 witness: a concrete engine that rejects the expression leaves a
concrete inspector state untouched and signals the error. -/
theorem set_filter_query_error_semantics_witness :
    setFilterQuery (fun _ _ => none)
      { events := [c5r1], selected := [c5r1], lastFilterQuery := none,
        selectedTimelines := [] } (some "category == ") =
      ({ events := [c5r1], selected := [c5r1], lastFilterQuery := none,
         selectedTimelines := [] }, true) :=
  (set_filter_query_error_semantics (fun _ _ => none) _ _ (by decide) rfl).1

/-- C1 counterexample: load a single record that starts and ends at the same
minute-aligned instant. The absolute bounds computed from it are degenerate
(both 0), and then `zoom_to_dates(0, 100)` produces the empty window (0, 0):
its length is not at least 10 seconds and `zoom_start < zoom_stop` fails, so
the claimed invariant does not hold for every post-load `zoom_to` call. -/
theorem zoom_to_dates_degenerate_counterexample :
    absoluteBounds c1Rec [] = (0, 0) ∧
    zoomToDates 0 0 0 100 = (0, 0) ∧
    ¬ (10 ≤ (zoomToDates 0 0 0 100).2 - (zoomToDates 0 0 0 100).1) ∧
    ¬ ((zoomToDates 0 0 0 100).1 < (zoomToDates 0 0 0 100).2) := by
  refine ⟨?_, ?_, ?_, ?_⟩ <;>
    norm_num [absoluteBounds, floorMinute, ceilMinute, minFrom, maxTo, c1Rec,
      zoomToDates, zoomClampStop, zoomClampStart, zoomFloorTen, zoomSwap]

/-- C1 amended: whenever the absolute range spans at least the 10-second
floor, every `zoom_to_dates(from, to)` call (any order of arguments, any
window beyond the absolute bounds) establishes
absolute_start ≤ zoom_start < zoom_stop ≤ absolute_stop with a window of at
least 10 seconds; and the absolute range recomputed from loaded data does
span at least 60 seconds whenever some loaded record has min(`from`)
strictly before max(`to`), because the bounds are floor/ceil minute-aligned. -/
theorem zoom_to_dates_window_invariant :
    (∀ absStart absStop fromDt toDt : ℚ, absStart + 10 ≤ absStop →
        absStart ≤ (zoomToDates absStart absStop fromDt toDt).1 ∧
        (zoomToDates absStart absStop fromDt toDt).1
            < (zoomToDates absStart absStop fromDt toDt).2 ∧
        (zoomToDates absStart absStop fromDt toDt).2 ≤ absStop ∧
        10 ≤ (zoomToDates absStart absStop fromDt toDt).2
            - (zoomToDates absStart absStop fromDt toDt).1) ∧
    (∀ (e : IntervalRec) (l : List IntervalRec), minFrom e l < maxTo e l →
        (absoluteBounds e l).1 + 60 ≤ (absoluteBounds e l).2) := by
  constructor
  · intro absStart absStop fromDt toDt habs
    unfold zoomToDates zoomClampStop zoomClampStart zoomFloorTen zoomSwap
    split_ifs <;> dsimp only at * <;>
      refine ⟨by linarith, by linarith, by linarith, by linarith⟩
  · intro e l h
    unfold absoluteBounds floorMinute ceilMinute
    have h1 : (⌊minFrom e l / 60⌋ : ℚ) ≤ minFrom e l / 60 := Int.floor_le _
    have h2 : maxTo e l / 60 ≤ (⌈maxTo e l / 60⌉ : ℚ) := Int.le_ceil _
    have h3 : minFrom e l / 60 < maxTo e l / 60 := by
      apply div_lt_div_of_pos_right h
      norm_num
    have h4 : ⌊minFrom e l / 60⌋ < ⌈maxTo e l / 60⌉ := by
      exact_mod_cast h1.trans_lt (h3.trans_le h2)
    have h5 : ((⌊minFrom e l / 60⌋ : ℚ) + 1) ≤ ((⌈maxTo e l / 60⌉ : ℚ)) := by
      exact_mod_cast h4
    dsimp only
    linarith

/-- C1 witness: a concrete in-bounds-capable state and call, plus concrete
loaded data spanning a nonzero duration. -/
theorem zoom_to_dates_window_invariant_witness :
    (0 ≤ (zoomToDates 0 3600 (-50) 5).1 ∧
      (zoomToDates 0 3600 (-50) 5).1 < (zoomToDates 0 3600 (-50) 5).2 ∧
      (zoomToDates 0 3600 (-50) 5).2 ≤ 3600 ∧
      10 ≤ (zoomToDates 0 3600 (-50) 5).2 - (zoomToDates 0 3600 (-50) 5).1) ∧
    (absoluteBounds c1WitRec []).1 + 60 ≤ (absoluteBounds c1WitRec []).2 :=
  ⟨zoom_to_dates_window_invariant.1 0 3600 (-50) 5 (by norm_num),
   zoom_to_dates_window_invariant.2 c1WitRec []
     (by norm_num [minFrom, maxTo, c1WitRec])⟩

/-- Helper: truncating a nonnegative pixel offset to resolution 1/M and
mapping back deviates from the original by at most one pixel when the
pixels-per-second does not exceed M. -/
theorem trunc_roundtrip_abs_le (p pps M : ℚ) (hpps : 0 < pps)
    (hM : 0 < M) (hppsM : pps ≤ M) :
    |((⌊p / pps * M⌋ : ℚ) / M) * pps - p| ≤ 1 := by
  have h1 : (⌊p / pps * M⌋ : ℚ) ≤ p / pps * M := Int.floor_le _
  have h2 : p / pps * M - 1 < (⌊p / pps * M⌋ : ℚ) := Int.sub_one_lt_floor _
  have key : (p / pps * M) / M * pps = p := by
    field_simp
    ring
  have e1 : (p / pps * M - 1) / M * pps = p - pps / M := by
    field_simp
    ring
  have e2 : pps / M ≤ 1 := (div_le_one hM).mpr hppsM
  have h3 : (p / pps * M - 1) / M * pps ≤ (⌊p / pps * M⌋ : ℚ) / M * pps := by
    apply mul_le_mul_of_nonneg_right _ hpps.le
    exact (div_le_div_iff_of_pos_right hM).mpr h2.le
  have h4 : (⌊p / pps * M⌋ : ℚ) / M * pps ≤ (p / pps * M) / M * pps := by
    apply mul_le_mul_of_nonneg_right _ hpps.le
    exact (div_le_div_iff_of_pos_right hM).mpr h1
  rw [abs_le]
  constructor <;> linarith

/-- C7 counterexample: the viewer's whole-second-truncating
`left_offset_to_datetime` at pixels_per_second = 100 maps pixel 50 to the
zoom start (int(50/100) = 0 whole seconds), and mapping that time back with
`left_offset_from_datetime` gives pixel 0 — 50 pixels away from the
original, far more than one pixel. -/
theorem pixel_roundtrip_counterexample :
    leftOffsetToDatetimeSeconds 0 50 100 = some 0 ∧
    leftOffsetFromDatetime 0 0 100 = 0 ∧
    ¬ (|leftOffsetFromDatetime 0 0 100 - 50| ≤ 1) := by
  refine ⟨?_, ?_, ?_⟩ <;>
    norm_num [leftOffsetToDatetimeSeconds, leftOffsetFromDatetime,
      secondsBetween, pytrunc]

/-- C7 amended: the round trip deviates from the original pixel by at most
one pixel provided pixels_per_second does not exceed the truncation
resolution: at most 10^6 for the analyzer's microsecond-truncating mapper,
and at most 1 for the viewer's whole-second-truncating mapper. -/
theorem pixel_roundtrip_bound (baselineDt p pps : ℚ) (hp : 0 ≤ p) (hpps : 0 < pps) :
    (pps ≤ 1000000 → ∀ t, leftOffsetToDatetime baselineDt p pps = some t →
        |leftOffsetFromDatetime baselineDt t pps - p| ≤ 1) ∧
    (pps ≤ 1 → ∀ t, leftOffsetToDatetimeSeconds baselineDt p pps = some t →
        |leftOffsetFromDatetime baselineDt t pps - p| ≤ 1) := by
  constructor
  · intro hle t ht
    rw [leftOffsetToDatetime, if_neg hpps.ne'] at ht
    have hx : (0 : ℚ) ≤ p / pps * 1000000 := by positivity
    rw [pytrunc, if_pos hx] at ht
    obtain rfl := (Option.some.inj ht).symm
    have h := trunc_roundtrip_abs_le p pps 1000000 hpps (by norm_num) hle
    simpa [leftOffsetFromDatetime, secondsBetween, add_sub_cancel_left] using h
  · intro hle t ht
    rw [leftOffsetToDatetimeSeconds, if_neg hpps.ne'] at ht
    have hx : (0 : ℚ) ≤ p / pps := by positivity
    rw [pytrunc, if_pos hx] at ht
    obtain rfl := (Option.some.inj ht).symm
    have h := trunc_roundtrip_abs_le p pps 1 hpps (by norm_num) hle
    simpa [leftOffsetFromDatetime, secondsBetween, add_sub_cancel_left] using h

/-- C7 witness: a concrete exact round trip within one pixel through the
microsecond-truncating mapper. -/
theorem pixel_roundtrip_bound_witness :
    |leftOffsetFromDatetime 0 (7 / 2 : ℚ) 2 - 7| ≤ 1 :=
  (pixel_roundtrip_bound 0 7 2 (by norm_num) (by norm_num)).1 (by norm_num) (7 / 2)
    (by norm_num [leftOffsetToDatetime, pytrunc])

/-- Helper: `List.find?` returns the element at the first index whose
predicate holds. -/
theorem find?_eq_get_of_first {α : Type} (l : List α) (p : α → Bool) (i : Fin l.length)
    (hm : p (l.get i) = true)
    (hprev : ∀ j : Fin l.length, (j : ℕ) < (i : ℕ) → p (l.get j) = false) :
    l.find? p = some (l.get i) := by
  induction l with
  | nil => exact absurd i.2 (Nat.not_lt_zero _)
  | cons a t ih =>
    rcases i with ⟨iv, hiv⟩
    cases iv with
    | zero =>
      simp only [List.get] at hm
      simp [List.find?, hm]
    | succ k =>
      have ha : p a = false := by
        have := hprev ⟨0, Nat.succ_pos _⟩ (Nat.succ_pos _)
        simpa using this
      have hk : k < t.length := Nat.lt_of_succ_lt_succ hiv
      have hrec := ih ⟨k, hk⟩ (by simpa using hm) (fun j hj => by
        have := hprev ⟨(j : ℕ) + 1, Nat.succ_lt_succ j.2⟩ (Nat.succ_lt_succ hj)
        simpa using this)
      simp [List.find?, ha, hrec]

/-- C3: classification is the deterministic first-match-wins scan of the
declared rule enumeration: whenever rule i matches a record and no earlier
rule does, `get_interval_classification` returns exactly rule i (so repeated
classification of the same record is identical and each record receives
exactly one classification); the catch-all rule matches every record, sits
last in the enumeration, and carries the Unclassified category. -/
theorem classification_first_match_wins :
    (∀ (r : Row) (i : Fin intervalClassifications.length),
        classMatches (intervalClassifications.get i) r = true →
        (∀ j : Fin intervalClassifications.length, (j : ℕ) < (i : ℕ) →
            classMatches (intervalClassifications.get j) r = false) →
        getIntervalClassification r = intervalClassifications.get i) ∧
    (∀ r : Row, classMatches unknownClassificationRule r = true) ∧
    intervalClassifications.getLast? = some unknownClassificationRule ∧
    unknownClassificationRule.category = "Unclassified" := by
  refine ⟨?_, fun r => rfl, by rfl, rfl⟩
  intro r i hm hprev
  unfold getIntervalClassification
  rw [find?_eq_get_of_first _ _ i hm hprev]

/-- C3 witness: a record matching no constrained rule is classified by the
final catch-all member (index 39 of the 40-rule enumeration). -/
theorem classification_first_match_wins_witness :
    getIntervalClassification [] = intervalClassifications.get ⟨39, by decide⟩ :=
  classification_first_match_wins.1 [] ⟨39, by decide⟩ (by decide) (by decide)

/-- C4: the viewer revision's `SimpleIntervalMatcher.matches` decides a
multi-pair annotations-map constraint by its first listed pair alone — on a
KubeEvent record whose `interesting` annotation is "true" but whose
`pathological` annotation is NOT "true", the two-pair PathologicalKnown
matcher (which per the claim must reject the record) accepts it, and the
engine classifies the record PathologicalKnown. -/
theorem matcher_first_pair_only_bug :
    simMatches pathologicalKnownMatcher c4Row = true ∧
    requiredValueMatches (getMessageAnnot c4Row "pathological") "true" = false ∧
    intervalClassifications.head? = some { name := "PathologicalKnown",
                                           category := "KubeEvent",
                                           matcher := .simple pathologicalKnownMatcher } ∧
    (getIntervalClassification c4Row).name = "PathologicalKnown" := by
  decide

/-- Helper: counting occurrences in the store filtered to one group key. -/
theorem count_filter_key (events : List IntervalRec) (k : String × String) (r : IntervalRec) :
    (events.filter (fun x => decide (recKey x = k))).count r
      = if recKey r = k then events.count r else 0 := by
  by_cases h : recKey r = k
  · rw [if_pos h]
    apply List.count_filter
    simp [h]
  · rw [if_neg h]
    apply List.count_eq_zero.2
    simp [List.mem_filter, h]

/-- Helper: counting occurrences across per-key buckets over a duplicate-free
key list. -/
theorem count_flatten_buckets (events : List IntervalRec) (ks : List (String × String))
    (hnd : ks.Nodup) (r : IntervalRec) :
    ((ks.map (fun k => events.filter (fun x => decide (recKey x = k)))).flatten).count r
      = if recKey r ∈ ks then events.count r else 0 := by
  induction ks with
  | nil => simp
  | cons k t ih =>
    rw [List.nodup_cons] at hnd
    simp only [List.map_cons, List.flatten_cons, List.count_append]
    rw [ih hnd.2, count_filter_key]
    by_cases h : recKey r = k
    · subst h
      simp [hnd.1]
    · simp [h, List.mem_cons]

/-- C5 counterexample: with store [c5r1, c5r2] (one timeline), filtered
selection [c5r1] and zoom window [0, 10], the collapse keeps the full
timeline bucket, so its union contains c5r2 — a record outside the filtered
(and zoom-overlapping) input set — hence the union does not equal the
filtered-and-collapsed input set [c5r1]. -/
theorem collapse_union_counterexample :
    c5r2 ∈ timelinesUnion (applyCollapseFilter [c5r1, c5r2] [c5r1] 0 10) ∧
    c5r2 ∉ [c5r1] ∧
    timelinesUnion (applyCollapseFilter [c5r1, c5r2] [c5r1] 0 10) ≠ [c5r1] := by
  decide

/-- C5 amended: after a collapse refresh, the union of the returned buckets
contains each STORE record exactly `events.count` times if its
(category_str, timeline_id) key survives and zero times otherwise (no
duplication, nothing lost among surviving timelines, but records excluded by
the active filter reappear when their timeline survives); a key survives
exactly when some record of the filtered selection with that key overlaps the
zoom window (to ≥ zoom_start and from ≤ zoom_stop); every surviving bucket is
the full store interval list of its key. -/
theorem collapse_grouping_characterization (events selected : List IntervalRec)
    (zoomStart zoomStop : ℚ) :
    (∀ r : IntervalRec,
        (timelinesUnion (applyCollapseFilter events selected zoomStart zoomStop)).count r
          = if recKey r ∈ survivingKeys selected zoomStart zoomStop
            then events.count r else 0) ∧
    (∀ k : String × String,
        k ∈ survivingKeys selected zoomStart zoomStop ↔
          ∃ s ∈ selected, recKey s = k ∧ zoomStart ≤ s.toT ∧ s.fromT ≤ zoomStop) ∧
    (∀ (k : String × String) (b : List IntervalRec),
        (k, b) ∈ applyCollapseFilter events selected zoomStart zoomStop →
          b = events.filter (fun x => decide (recKey x = k))) := by
  refine ⟨?_, ?_, ?_⟩
  · intro r
    have hnd : (((events.map recKey).dedup).filter
        (fun k => decide (k ∈ survivingKeys selected zoomStart zoomStop))).Nodup :=
      (List.nodup_dedup _).filter _
    have hmain := count_flatten_buckets events _ hnd r
    unfold timelinesUnion applyCollapseFilter allTimelines
    rw [List.filter_map, List.map_map]
    rw [show (Prod.snd ∘ fun k => (k, events.filter (fun x => decide (recKey x = k))))
        = (fun k => events.filter (fun x => decide (recKey x = k))) from rfl]
    rw [show ((fun kb : (String × String) × List IntervalRec =>
          decide (kb.1 ∈ survivingKeys selected zoomStart zoomStop)) ∘
          (fun k => (k, events.filter (fun x => decide (recKey x = k)))))
        = (fun k => decide (k ∈ survivingKeys selected zoomStart zoomStop)) from rfl]
    rw [hmain]
    by_cases hs : recKey r ∈ survivingKeys selected zoomStart zoomStop
    · by_cases hk : recKey r ∈ (events.map recKey).dedup
      · rw [if_pos (List.mem_filter.2 ⟨hk, by simpa using hs⟩), if_pos hs]
      · rw [if_neg, if_pos hs]
        · have hre : r ∉ events := fun hr => hk (List.mem_dedup.2 (List.mem_map_of_mem _ hr))
          exact (List.count_eq_zero.2 hre).symm
        · intro hmem
          exact hk (List.mem_filter.1 hmem).1
    · rw [if_neg, if_neg hs]
      intro hmem
      exact hs (by simpa using (List.mem_filter.1 hmem).2)
  · intro k
    unfold survivingKeys
    rw [List.mem_dedup]
    constructor
    · intro h
      obtain ⟨s, hs, rfl⟩ := List.mem_map.1 h
      obtain ⟨hsel, hov⟩ := List.mem_filter.1 hs
      have hov2 : zoomStart ≤ s.toT ∧ s.fromT ≤ zoomStop := by
        simpa [overlapsWindow, Bool.and_eq_true, decide_eq_true_eq] using hov
      exact ⟨s, hsel, rfl, hov2.1, hov2.2⟩
    · rintro ⟨s, hsel, rfl, h1, h2⟩
      exact List.mem_map.2
        ⟨s, List.mem_filter.2 ⟨hsel, by simp [overlapsWindow, h1, h2]⟩, rfl⟩
  · intro k b hmem
    unfold applyCollapseFilter allTimelines at hmem
    obtain ⟨hmem2, _⟩ := List.mem_filter.1 hmem
    obtain ⟨k', hk', heq⟩ := List.mem_map.1 hmem2
    obtain ⟨h1, h2⟩ := Prod.mk.injEq .. |>.mp heq
    rw [← h2, h1]

/-- C5 witness: the count characterization evaluated at the concrete
collapse counterexample data. -/
theorem collapse_grouping_characterization_witness :
    (timelinesUnion (applyCollapseFilter [c5r1, c5r2] [c5r1] 0 10)).count c5r2
      = if recKey c5r2 ∈ survivingKeys [c5r1] 0 10
        then ([c5r1, c5r2] : List IntervalRec).count c5r2 else 0 :=
  (collapse_grouping_characterization [c5r1, c5r2] [c5r1] 0 10).1 c5r2
